import Mathlib

/-!
Verification development for the MCP protocol engine of the stock-analysis
chatbot repository (Go). The definitions below are a shallow embedding of
`pkg/models/mcp.go`, the server dispatch code (`internal/mcp/server.go`,
given as `src/unnamed/part_002`), the client (`internal/mcp/client.go`) and
the Initialize call sites of the chatbot host (`cmd/chatbot/main.go`).

Modelling conventions:
* JSON values are the inductive `JVal`; numbers are modelled as integers
  (no claim depends on numeric precision).
* `encoding/json` encoders are modelled as reliable sinks: an `Encode` call
  appends the envelope to an output list.  Encode failures (broken pipe)
  are outside every claim.
* A `json.Decoder` input stream is a list of successfully decoded requests
  followed by a `StreamEnd`: either end of stream (`io.EOF`) or a decode
  failure.  A Go `json.Decoder` never resynchronises after a failure (the
  error is sticky), so no further values can follow a decode failure; the
  list-followed-by-end shape is exact.
* Go maps are association lists with insert-or-replace; iteration order is
  fixed to insertion order (Go's map order is unspecified; every claim here
  is insensitive to the order).
* Error strings are abbreviated where Go builds them with `fmt.Errorf`;
  only the parts the source writes literally are kept.
-/

namespace MCP

/-- JSON values as decoded by `encoding/json` into `interface\x7b\x7d`
(numbers restricted to integers). -/
inductive JVal where
  | null
  | bool (b : Bool)
  | num (n : Int)
  | str (s : String)
  | arr (elems : List JVal)
  | obj (fields : List (String × JVal))

/-- Lookup of a key in a decoded JSON object (Go: map indexing / struct
field matching by json tag). -/
def lookupField (fields : List (String × JVal)) (k : String) : Option JVal :=
  (fields.find? (fun p => p.1 == k)).map (fun p => p.2)

/-- `models.JSONRPCRequest`: jsonrpc, optional id, method, optional params.
`ID interface\x7b\x7d` is `none` when the field is absent or null. -/
structure JSONRPCRequest where
  jsonrpc : String
  id : Option JVal
  method : String
  params : Option JVal

/-- `models.JSONRPCError`: code, message, data.  The `Data interface\x7b\x7d`
field is always populated with a string by `Server.sendError`. -/
structure JSONRPCError where
  code : Int
  message : String
  data : String

/-- `models.ServerInfo` / `models.ClientInfo`. -/
structure ServerInfo where
  name : String
  version : String

/-- `models.ToolsCapability`. -/
structure ToolsCapability where
  listChanged : Bool

/-- `models.ServerCapabilities` (the fields the repository populates:
`Tools` pointer and presence of the `Logging` pointer). -/
structure ServerCapabilities where
  tools : Option ToolsCapability
  logging : Bool

/-- `models.InitializeResponse`. -/
structure InitializeResponse where
  protocolVersion : String
  capabilities : ServerCapabilities
  serverInfo : ServerInfo

/-- An opaque `json.RawMessage` schema blob.  The three named constructors
stand for the three schema literals hard-coded in `handleListTools`; `raw`
stands for any other blob a caller might pass to `RegisterTool`. -/
inductive RawSchema where
  | analyzePortfolioSchema
  | getStockPriceSchema
  | exportAnalysisSchema
  | raw (s : String)

/-- `models.Tool`: name, description, inputSchema (a nil `json.RawMessage`
is `none`). -/
structure Tool where
  name : String
  description : String
  inputSchema : Option RawSchema

/-- `models.ListToolsResponse`. -/
structure ListToolsResponse where
  tools : List Tool

/-- `models.Content`. -/
structure Content where
  type : String
  text : String

/-- `models.CallToolResponse`. -/
structure CallToolResponse where
  content : List Content
  isError : Bool

/-- `models.CallToolRequest` after json decoding: `Name` (zero value "")
and `Arguments map[string]interface\x7b\x7d` (nil map is `[]`). -/
structure CallToolRequest where
  name : String
  arguments : List (String × JVal)

/-- The typed results the server places in `JSONRPCResponse.Result`. -/
inductive RpcResult where
  | initResult (r : InitializeResponse)
  | listTools (r : ListToolsResponse)
  | callTool (r : CallToolResponse)

/-- `models.JSONRPCResponse`. -/
structure JSONRPCResponse where
  jsonrpc : String
  id : Option JVal
  result : Option RpcResult
  error : Option JSONRPCError

/-- Can a JSON value be unmarshalled into a Go `string` field?
(`null` leaves the zero value, so it is accepted.) -/
def jIsString : JVal → Bool
  | .str _ => true
  | .null => true
  | _ => false

/-- Can a JSON value be unmarshalled into a Go map/struct field?
(`null` leaves the zero value.) -/
def jIsObj : JVal → Bool
  | .obj _ => true
  | .null => true
  | _ => false

/-- A struct field decodes when absent or when its value passes `check`
(absent fields keep their zero value in `json.Unmarshal`). -/
def fieldOk (fields : List (String × JVal)) (k : String) (check : JVal → Bool) : Bool :=
  match lookupField fields k with
  | none => true
  | some v => check v

/-- Shape check for `models.ClientInfo` (fields `name`, `version`). -/
def clientInfoOk : JVal → Bool
  | .null => true
  | .obj fs => fieldOk fs "name" jIsString && fieldOk fs "version" jIsString
  | _ => false

/-- Shape check for `models.ClientCapabilities` (fields `experimental`,
`sampling`, both maps). -/
def clientCapabilitiesOk : JVal → Bool
  | .null => true
  | .obj fs => fieldOk fs "experimental" jIsObj && fieldOk fs "sampling" jIsObj
  | _ => false

/-- `json.Unmarshal` of the re-marshalled params into
`models.InitializeRequest` (the decoded struct is never read afterwards, so
only success or failure is kept). -/
def decodeInitialize (v : JVal) : Except String Unit :=
  match v with
  | .null => .ok ()
  | .obj fs =>
      if fieldOk fs "protocolVersion" jIsString
          && fieldOk fs "capabilities" clientCapabilitiesOk
          && fieldOk fs "clientInfo" clientInfoOk
      then .ok ()
      else .error "cannot unmarshal params into InitializeRequest"
  | _ => .error "cannot unmarshal params into InitializeRequest"

/-- `json.Unmarshal` of the re-marshalled params into
`models.CallToolRequest`: field `name` must be a string (absent/null gives
the zero value ""), field `arguments` must be an object (absent/null gives
the nil map). -/
def decodeCallTool (v : JVal) : Except String CallToolRequest :=
  match v with
  | .null => .ok ⟨"", []⟩
  | .obj fs =>
      match lookupField fs "name", lookupField fs "arguments" with
      | none, none => .ok ⟨"", []⟩
      | none, some (.obj kvs) => .ok ⟨"", kvs⟩
      | none, some .null => .ok ⟨"", []⟩
      | some (.str s), none => .ok ⟨s, []⟩
      | some (.str s), some (.obj kvs) => .ok ⟨s, kvs⟩
      | some (.str s), some .null => .ok ⟨s, []⟩
      | some .null, none => .ok ⟨"", []⟩
      | some .null, some (.obj kvs) => .ok ⟨"", kvs⟩
      | some .null, some .null => .ok ⟨"", []⟩
      | _, _ => .error "cannot unmarshal params into CallToolRequest"
  | _ => .error "cannot unmarshal params into CallToolRequest"

/-- `server.go ToolHandler.Handle`: given the argument map, return a
`*models.CallToolResponse` or a Go error (its message). -/
def ToolHandler : Type := List (String × JVal) → Except String CallToolResponse

/-- The server (`server.go Server`); the logger is pure diagnostics and is
not modelled.  `tools` is the `map[string]ToolHandler` as an association
list. -/
structure Server where
  name : String
  version : String
  capabilities : ServerCapabilities
  tools : List (String × ToolHandler)

/-- `server.go NewServer`. -/
def NewServer (name version : String) : Server :=
  { name := name
    version := version
    capabilities := { tools := some { listChanged := false }, logging := true }
    tools := [] }

/-- Go map assignment `m[name] = handler`: replace an existing binding,
otherwise add one. -/
def insertTool (ts : List (String × ToolHandler)) (name : String) (h : ToolHandler) :
    List (String × ToolHandler) :=
  if ts.any (fun p => p.1 == name) then
    ts.map (fun p => if p.1 == name then (name, h) else p)
  else
    ts ++ [(name, h)]

/-- Go map lookup `handler, exists := s.tools[name]`. -/
def lookupTool (ts : List (String × ToolHandler)) (name : String) : Option ToolHandler :=
  (ts.find? (fun p => p.1 == name)).map (fun p => p.2)

/-- `server.go Server.RegisterTool`: only `s.tools[name] = handler` is
executed; the `description` and `inputSchema` arguments are dropped. -/
def Server.RegisterTool (s : Server) (name : String) (description : String)
    (inputSchema : Option RawSchema) (handler : ToolHandler) : Server :=
  -- Go body: s.tools[name] = handler  (plus a log line)
  let _ := description
  let _ := inputSchema
  { s with tools := insertTool s.tools name handler }

/-- `server.go Server.getToolDescription`: a fixed internal map; a Go map
lookup of a missing key yields the zero value "". -/
def Server.getToolDescription (name : String) : String :=
  match name with
  | "analyze_portfolio" => "Analyze a portfolio of stocks and provide investment recommendations"
  | "get_stock_price" => "Get current stock price and basic information"
  | "export_analysis" => "Export analysis results to CSV or JSON format"
  | _ => ""

/-- The `switch name` in `server.go handleListTools` attaching one of three
schema literals; any other name leaves the nil `json.RawMessage`. -/
def schemaForName (name : String) : Option RawSchema :=
  match name with
  | "analyze_portfolio" => some .analyzePortfolioSchema
  | "get_stock_price" => some .getStockPriceSchema
  | "export_analysis" => some .exportAnalysisSchema
  | _ => none

/-- `server.go Server.sendError` (the response it encodes). -/
def sendErrorResponse (id : Option JVal) (code : Int) (message data : String) :
    JSONRPCResponse :=
  { jsonrpc := "2.0"
    id := id
    result := none
    error := some { code := code, message := message, data := data } }

/-- `server.go Server.handleInitialize` (the response it encodes). -/
def Server.handleInitialize (s : Server) (request : JSONRPCRequest) : JSONRPCResponse :=
  match request.params with
  | some p =>
      match decodeInitialize p with
      | .error e => sendErrorResponse request.id (-32602) "Invalid params" e
      | .ok _ =>
          { jsonrpc := "2.0"
            id := request.id
            result := some (.initResult
              { protocolVersion := "2024-11-05"
                capabilities := s.capabilities
                serverInfo := { name := s.name, version := s.version } })
            error := none }
  | none =>
      { jsonrpc := "2.0"
        id := request.id
        result := some (.initResult
          { protocolVersion := "2024-11-05"
            capabilities := s.capabilities
            serverInfo := { name := s.name, version := s.version } })
        error := none }

/-- `server.go Server.handleListTools` (the response it encodes). -/
def Server.handleListTools (s : Server) (request : JSONRPCRequest) : JSONRPCResponse :=
  { jsonrpc := "2.0"
    id := request.id
    result := some (.listTools
      { tools := s.tools.map (fun p =>
          { name := p.1
            description := Server.getToolDescription p.1
            inputSchema := schemaForName p.1 }) })
    error := none }

/-- The params decode step of `handleCallTool`: skipped when `Params` is
nil (zero-valued `CallToolRequest`). -/
def callParamsOf (request : JSONRPCRequest) : Except String CallToolRequest :=
  match request.params with
  | some p => decodeCallTool p
  | none => .ok ⟨"", []⟩

/-- `server.go Server.handleCallTool` (the response it encodes). -/
def Server.handleCallTool (s : Server) (request : JSONRPCRequest) : JSONRPCResponse :=
  match callParamsOf request with
  | .error e => sendErrorResponse request.id (-32602) "Invalid params" e
  | .ok callReq =>
      match lookupTool s.tools callReq.name with
      | none => sendErrorResponse request.id (-32601) "Tool not found" callReq.name
      | some handler =>
          match handler callReq.arguments with
          | .error e => sendErrorResponse request.id (-32603) "Tool execution error" e
          | .ok result =>
              { jsonrpc := "2.0"
                id := request.id
                result := some (.callTool result)
                error := none }

/-- One iteration of the `switch request.Method` in
`server.go Server.HandleRequest`: the envelopes encoded for this request.
`handleInitialized` only logs, so it encodes nothing. -/
def Server.dispatch (s : Server) (request : JSONRPCRequest) : List JSONRPCResponse :=
  match request.method with
  | "initialize" => [s.handleInitialize request]
  | "tools/list" => [s.handleListTools request]
  | "tools/call" => [s.handleCallTool request]
  | "notifications/initialized" => []
  | _ => [sendErrorResponse request.id (-32601) "Method not found" request.method]

/-- One result of a `decoder.Decode(&request)` call on the input stream:
a successfully decoded request, or a decode failure with the error's
message.  `recoverable` records the kind of failure: an unmarshal type
error (for example `\x7b"method":123\x7d`) is recoverable — `encoding/json`
deliberately does not save it into `dec.err`, a complete JSON value was
consumed, and subsequent `Decode` calls can succeed — while a syntax or IO
error is sticky, so in a real stream no further events follow one.  The
list of events in stream order ends at `io.EOF`. -/
inductive DecodeEvent where
  | ok (r : JSONRPCRequest)
  | err (msg : String) (recoverable : Bool)

/-- `server.go Server.HandleRequest`: the full list of envelopes encoded
for one input stream.  On `io.EOF` (end of the event list) the loop
returns nil; on any decode failure — recoverable or not, the code never
distinguishes — it encodes one parse-error response (nil id) and returns,
so events after the first failure are never processed. -/
def Server.HandleRequest (s : Server) (events : List DecodeEvent) :
    List JSONRPCResponse :=
  match events with
  | [] => []
  | .err msg _ :: _ => [sendErrorResponse none (-32700) "Parse error" msg]
  | .ok r :: rest => s.dispatch r ++ s.HandleRequest rest

/-! ### Client side (`internal/mcp/client.go`) with a model of `os/exec` -/

/-- Behaviour of the spawned OS process, fixed by the command being run:
whether it exits within the 100ms post-spawn grace interval, and whether it
exits within the 5-second wait `Close` performs before killing. -/
structure GoProc where
  exitsWithinGrace : Bool
  exitsWithinCloseTimeout : Bool

/-- `os.ProcessState` (the part `Client.Connect` reads: `Exited()`). -/
structure ProcState where
  exitedFlag : Bool

/-- `ProcessState.Exited()`. -/
def ProcState.Exited (ps : ProcState) : Bool := ps.exitedFlag

/-- `exec.Cmd` after `Start`: its `ProcessState` field.  Per the `os/exec`
contract, `ProcessState` is populated only by `Wait` (or `Run`); after
`Start` alone it is nil — even if the OS process has already exited. -/
structure GoCmd where
  proc : GoProc
  processState : Option ProcState

/-- `exec.Command(...)` followed by `cmd.Start()` succeeding: the process
runs and `ProcessState` is nil (no `Wait` has been called). -/
def startGo (proc : GoProc) : GoCmd :=
  { proc := proc, processState := none }

/-- `client.go Client`: the command, the spawned `exec.Cmd` (nil before
`Connect`), the three pipes, the encoder presence (`c.encoder == nil`
check in `sendRequest`), the id counter, the decoder's pending envelope
stream, and the envelopes written so far (`encoder.Encode` calls). -/
structure Client where
  serverCommand : List String
  serverCmd : Option GoCmd
  stdinOpen : Bool
  stdoutOpen : Bool
  stderrOpen : Bool
  encoderSet : Bool
  nextID : Nat
  incoming : List JSONRPCResponse
  outgoing : List JSONRPCRequest

/-- `client.go NewClient`: `nextID` starts at 1, nothing connected.
Go's `int` is 64-bit and the counter only increments from 1; a session
cannot overflow it, so `Nat` is exact on every reachable state. -/
def NewClient (serverCommand : List String) : Client :=
  { serverCommand := serverCommand
    serverCmd := none
    stdinOpen := false
    stdoutOpen := false
    stderrOpen := false
    encoderSet := false
    nextID := 1
    incoming := []
    outgoing := [] }

/-- `client.go Client.Connect` (spawn succeeding): already-connected check,
`cmd.Start()`, `time.Sleep(100ms)`, then the immediate-exit check
`cmd.ProcessState != nil && cmd.ProcessState.Exited()`, then the field
assignments.  `peerOutput` is the envelope stream the spawned process will
write to its stdout (bound to the decoder). -/
def Client.Connect (c : Client) (proc : GoProc) (peerOutput : List JSONRPCResponse) :
    Except String Unit × Client :=
  if c.serverCmd.isSome then
    (.error "client already connected", c)
  else
    let cmd := startGo proc
    match cmd.processState with
    | some ps =>
        if ps.Exited then
          (.error "server process exited immediately", c)
        else
          (.ok (), { c with
            serverCmd := some cmd, stdinOpen := true, stdoutOpen := true,
            stderrOpen := true, encoderSet := true, incoming := peerOutput })
    | none =>
        (.ok (), { c with
          serverCmd := some cmd, stdinOpen := true, stdoutOpen := true,
          stderrOpen := true, encoderSet := true, incoming := peerOutput })

/-- `client.go Client.getNextID`. -/
def Client.getNextID (c : Client) : Nat × Client :=
  (c.nextID, { c with nextID := c.nextID + 1 })

/-- `client.go Client.sendRequest`: check `c.encoder == nil`, encode the
request, then decode the next envelope from the stream as the response.
No field of the decoded envelope is compared with the request. -/
def Client.sendRequest (c : Client) (request : JSONRPCRequest) :
    Except String JSONRPCResponse × Client :=
  if c.encoderSet = false then
    (.error "client not connected", c)
  else
    let c1 := { c with outgoing := c.outgoing ++ [request] }
    match c1.incoming with
    | [] => (.error "failed to decode response", c1)
    | resp :: rest => (.ok resp, { c1 with incoming := rest })

/-- The params struct `Client.Initialize` sends (`models.InitializeRequest`
literal from `client.go`). -/
def clientInitParams : JVal :=
  .obj [("protocolVersion", .str "2024-11-05"),
        ("capabilities", .obj [("experimental", .obj [])]),
        ("clientInfo", .obj [("name", .str "MCP Stock Analysis Client"),
                             ("version", .str "1.0.0")])]

/-- The `notifications/initialized` notification `Client.Initialize`
encodes after a successful handshake (no id). -/
def initializedNotification : JSONRPCRequest :=
  { jsonrpc := "2.0", id := none, method := "notifications/initialized", params := none }

/-- Zero value of `models.InitializeResponse`. -/
def zeroInitializeResponse : InitializeResponse :=
  { protocolVersion := ""
    capabilities := { tools := none, logging := false }
    serverInfo := { name := "", version := "" } }

/-- `json.Marshal(response.Result)` followed by `json.Unmarshal` into
`models.InitializeResponse`: a nil result round-trips as `null` (zero
value); a result of another shape has no colliding field names, so
`json.Unmarshal` ignores its fields and also leaves the zero value. -/
def decodeInitResult : Option RpcResult → Except String InitializeResponse
  | none => .ok zeroInitializeResponse
  | some (.initResult r) => .ok r
  | some (.listTools _) => .ok zeroInitializeResponse
  | some (.callTool _) => .ok zeroInitializeResponse

/-- `client.go Client.Initialize`: allocate an id, send the `initialize`
request, fail on a transport error, fail on a response carrying an error
(`"initialize error: " + message`) — note no teardown happens on either
failure path — decode the result, then encode the initialized
notification. -/
def Client.Initialize (c : Client) : Except String InitializeResponse × Client :=
  let idc := c.getNextID
  let request : JSONRPCRequest :=
    { jsonrpc := "2.0"
      id := some (.num (idc.1 : Int))
      method := "initialize"
      params := some clientInitParams }
  match idc.2.sendRequest request with
  | (.error e, c1) => (.error e, c1)
  | (.ok response, c1) =>
      match response.error with
      | some err => (.error ("initialize error: " ++ err.message), c1)
      | none =>
          match decodeInitResult response.result with
          | .error e => (.error ("failed to parse initialize response: " ++ e), c1)
          | .ok initResponse =>
              (.ok initResponse,
               { c1 with outgoing := c1.outgoing ++ [initializedNotification] })

/-- The observable steps of `client.go Client.Close`, in program order. -/
inductive CloseAction where
  | closeStdin
  | closeStdout
  | closeStderr
  | waitReturned
  | timeoutExpired
  | killProcess
  | waitAfterKill

/-- `client.go Client.Close`: nil-cmd fast path; otherwise close stdin
(write side), then stdout and stderr (read sides), start `Wait`, select on
it against a 5-second timer, and on timeout `Kill` the process and block on
`Wait` unconditionally (a killed process is always reclaimed).  The Go
function always returns nil; the model returns the action trace and the
final state.  It is a total function: `Close` always returns. -/
def Client.Close (c : Client) : List CloseAction × Client :=
  match c.serverCmd with
  | none => ([], c)
  | some cmd =>
      let waitActs :=
        if cmd.proc.exitsWithinCloseTimeout then
          [CloseAction.waitReturned]
        else
          [CloseAction.timeoutExpired, CloseAction.killProcess, CloseAction.waitAfterKill]
      ([CloseAction.closeStdin, CloseAction.closeStdout, CloseAction.closeStderr] ++ waitActs,
       { c with serverCmd := none, stdinOpen := false, stdoutOpen := false,
                stderrOpen := false })

/-- From `cmd/chatbot/main.go connectToMCPServer` (and every other
Initialize call site in the repository):
`initResponse, err := client.Initialize(); if err != nil \x7b client.Close(); return ... \x7d`. -/
def initializeOrClose (c : Client) : Except String InitializeResponse × Client :=
  match c.Initialize with
  | (.ok r, c1) => (.ok r, c1)
  | (.error e, c1) => (.error ("failed to initialize: " ++ e), (c1.Close).2)

/-- The ids produced by `n` successive `getNextID` allocations. -/
def idsAllocated (c : Client) : Nat → List Nat
  | 0 => []
  | n + 1 =>
      let p := c.getNextID
      p.1 :: idsAllocated p.2 n

/-! ### Helper lemmas -/

theorem handleInitialize_id (s : Server) (r : JSONRPCRequest) :
    (s.handleInitialize r).id = r.id := by
  unfold Server.handleInitialize
  repeat' split
  all_goals rfl

theorem handleCallTool_id (s : Server) (r : JSONRPCRequest) :
    (s.handleCallTool r).id = r.id := by
  unfold Server.handleCallTool
  repeat' split
  all_goals rfl

theorem dispatch_tools_call (s : Server) (r : JSONRPCRequest)
    (hm : r.method = "tools/call") :
    s.dispatch r = [s.handleCallTool r] := by
  obtain ⟨js, i, m, ps⟩ := r
  dsimp only at hm
  subst hm
  rfl

theorem dispatch_notifications_initialized (s : Server) (r : JSONRPCRequest)
    (hm : r.method = "notifications/initialized") :
    s.dispatch r = [] := by
  obtain ⟨js, i, m, ps⟩ := r
  dsimp only at hm
  subst hm
  rfl

/-- All envelopes emitted for a list of requests, one dispatch at a time. -/
def Server.dispatchAll (s : Server) (reqs : List JSONRPCRequest) : List JSONRPCResponse :=
  match reqs with
  | [] => []
  | r :: rest => s.dispatch r ++ s.dispatchAll rest

theorem idsAllocated_eq_range (c : Client) (n : Nat) :
    idsAllocated c n = List.range' c.nextID n := by
  induction n generalizing c with
  | zero => rfl
  | succ n ih =>
      simp only [idsAllocated, Client.getNextID, List.range']
      exact congrArg (c.nextID :: ·) (ih _)

/-! ### Concrete instances for witnesses and counterexamples -/

/-- The server instance from `servers/stock-analyzer/main.go`. -/
def srv0 : Server := NewServer "Stock Analyzer MCP Server" "2.0.0"

def reqListTools1 : JSONRPCRequest :=
  { jsonrpc := "2.0", id := some (.num 1), method := "tools/list", params := none }

/-- A handler whose invocation always fails with a Go error. -/
def boomHandler : ToolHandler := fun _ => .error "exploded"

def boomServer : Server :=
  srv0.RegisterTool "boom" "always fails" none boomHandler

def boomCall : JSONRPCRequest :=
  { jsonrpc := "2.0", id := some (.num 7), method := "tools/call",
    params := some (.obj [("name", .str "boom")]) }

def notifInitialized0 : JSONRPCRequest :=
  { jsonrpc := "2.0", id := none, method := "notifications/initialized", params := none }

def bogusNotification : JSONRPCRequest :=
  { jsonrpc := "2.0", id := none, method := "bogus", params := none }

/-- A handler registered under a name outside the three built-in tables. -/
def echoHandler : ToolHandler :=
  fun _ => .ok { content := [{ type := "text", text := "hi" }], isError := false }

def echoServer : Server :=
  srv0.RegisterTool "echo" "Echo tool" (some (.raw "declared-echo-schema")) echoHandler

/-! ### The claims -/

/-- C1: Id-echo invariant — every Request the dispatch loop handles
(`initialize`, `tools/list`, `tools/call` — including a failed tool call —
or an unknown method; i.e. every method other than
`notifications/initialized`) that carries an id gets exactly one Response
encoded for it, and that Response's id equals the Request's id. -/
theorem server_id_echo (s : Server) (r : JSONRPCRequest) (v : JVal)
    (hid : r.id = some v) (hm : r.method ≠ "notifications/initialized") :
    ∃ resp, s.dispatch r = [resp] ∧ resp.id = some v := by
  unfold Server.dispatch
  split
  · exact ⟨_, rfl, (handleInitialize_id s r).trans hid⟩
  · exact ⟨_, rfl, hid⟩
  · exact ⟨_, rfl, (handleCallTool_id s r).trans hid⟩
  · next h => exact absurd h hm
  · exact ⟨_, rfl, hid⟩

/-- Witness for C1 at a concrete `tools/list` request with id 1. -/
theorem server_id_echo_witness :
    ∃ resp, srv0.dispatch reqListTools1 = [resp] ∧ resp.id = some (.num 1) :=
  server_id_echo srv0 reqListTools1 (.num 1) rfl (by decide)

/-- C2: a `tools/call` Request whose named handler exists but fails is
answered with a Response whose error has code -32603 and the failure's
message as data, and the dispatch loop goes on to process the rest of the
stream instead of terminating. -/
theorem tool_failure_wrapped (s : Server) (r : JSONRPCRequest)
    (rest : List DecodeEvent)
    (h : ToolHandler) (callReq : CallToolRequest) (msg : String)
    (hm : r.method = "tools/call")
    (hp : callParamsOf r = .ok callReq)
    (hl : lookupTool s.tools callReq.name = some h)
    (hf : h callReq.arguments = .error msg) :
    s.HandleRequest (.ok r :: rest) =
      sendErrorResponse r.id (-32603) "Tool execution error" msg
        :: s.HandleRequest rest := by
  have hcall : s.handleCallTool r =
      sendErrorResponse r.id (-32603) "Tool execution error" msg := by
    unfold Server.handleCallTool
    simp only [hp, hl, hf]
  show s.dispatch r ++ s.HandleRequest rest = _
  rw [dispatch_tools_call s r hm, hcall]
  rfl

/-- Witness for C2: the failing `boom` tool, followed by an empty stream. -/
theorem tool_failure_wrapped_witness :
    boomServer.HandleRequest [.ok boomCall] =
      [sendErrorResponse (some (.num 7)) (-32603) "Tool execution error" "exploded"] :=
  tool_failure_wrapped boomServer boomCall [] boomHandler ⟨"boom", []⟩
    "exploded" rfl rfl rfl rfl

/-- C3 counterexample: a recoverable decode failure (an unmarshal type
error such as `\x7b"method":123\x7d`, after which the decoder is still
usable) followed by a perfectly decodable `tools/list` request.  The claim
requires the loop to continue here (it may terminate only on failures
unrecoverable for the stream), but the code sends the -32700 response and
returns: the output is the single parse-error envelope and the following
request is never answered. -/
theorem parse_error_terminates_recoverable_stream :
    srv0.HandleRequest
        [.err "cannot unmarshal number into field method of type string" true,
         .ok reqListTools1] =
      [sendErrorResponse none (-32700) "Parse error"
        "cannot unmarshal number into field method of type string"] := rfl

/-- C3 amended: on `io.EOF` the dispatch loop returns cleanly, emitting
nothing beyond the per-request responses; on any other decode failure it
sends exactly one Response with the parse-error code (-32700, nil id) and
then terminates the dispatch loop unconditionally — even when the failure
is a recoverable unmarshal error, any further events on the stream
(`trailing`) are never processed. -/
theorem stream_end_handling (s : Server) (reqs : List JSONRPCRequest) (msg : String)
    (recoverable : Bool) (trailing : List DecodeEvent) :
    s.HandleRequest (reqs.map DecodeEvent.ok) = s.dispatchAll reqs ∧
    s.HandleRequest (reqs.map DecodeEvent.ok ++ .err msg recoverable :: trailing) =
      s.dispatchAll reqs ++ [sendErrorResponse none (-32700) "Parse error" msg] := by
  induction reqs with
  | nil => exact ⟨rfl, rfl⟩
  | cons r rest ih =>
      refine ⟨?_, ?_⟩
      · show s.dispatch r ++ s.HandleRequest (rest.map DecodeEvent.ok) =
          s.dispatch r ++ s.dispatchAll rest
        rw [ih.1]
      · show s.dispatch r ++
            s.HandleRequest (rest.map DecodeEvent.ok ++ .err msg recoverable :: trailing) = _
        rw [ih.2, Server.dispatchAll, List.append_assoc]

/-- C4 counterexample: the claim says an Envelope with no id never gets a
Response, whatever its method; but an id-less envelope with method
`"bogus"` is routed through the default arm and gets a method-not-found
Response (with nil id). -/
theorem notification_silence_counterexample :
    srv0.dispatch bogusNotification =
      [sendErrorResponse none (-32601) "Method not found" "bogus"] := rfl

/-- C4 amended: an Envelope with no id whose method is
`notifications/initialized` gets no Response from the dispatch loop;
id-less envelopes with other methods are dispatched like Requests. -/
theorem notification_initialized_silent (s : Server) (r : JSONRPCRequest)
    (_hid : r.id = none) (hm : r.method = "notifications/initialized") :
    s.dispatch r = [] :=
  dispatch_notifications_initialized s r hm

/-- Witness for the amended C4 at the concrete initialized notification. -/
theorem notification_initialized_silent_witness :
    srv0.dispatch notifInitialized0 = [] :=
  notification_initialized_silent srv0 notifInitialized0 rfl rfl

/-- C5 counterexample: registering `echo` with description `"Echo tool"`
and a declared schema, then listing, yields the tool with description `""`
and no schema — not the metadata declared at registration time. -/
theorem register_list_counterexample :
    (echoServer.handleListTools reqListTools1).result =
      some (.listTools { tools := [{ name := "echo", description := "",
                                     inputSchema := none }] })
    ∧ "" ≠ "Echo tool" :=
  ⟨rfl, by decide⟩

/-- C5 amended: `tools/list` yields exactly the registered names, but each
is paired with a description from the fixed internal table
(`getToolDescription`, empty for other names) and an inputSchema from the
fixed per-name switch over the three built-in names; the description and
inputSchema arguments of `RegisterTool` are ignored. -/
theorem tools_list_from_fixed_tables (s : Server) (r : JSONRPCRequest)
    (name d1 d2 : String) (sch1 sch2 : Option RawSchema) (h : ToolHandler) :
    s.RegisterTool name d1 sch1 h = s.RegisterTool name d2 sch2 h
    ∧ s.handleListTools r =
        { jsonrpc := "2.0"
          id := r.id
          result := some (.listTools
            { tools := s.tools.map (fun p =>
                { name := p.1
                  description := Server.getToolDescription p.1
                  inputSchema := schemaForName p.1 }) })
          error := none } :=
  ⟨rfl, rfl⟩

/-! ### Client-side concrete instances -/

/-- A command whose process exits within the 100ms grace interval (for
example `/bin/false`). -/
def procCrash : GoProc := { exitsWithinGrace := true, exitsWithinCloseTimeout := true }

/-- A healthy long-running server process. -/
def procHealthy : GoProc := { exitsWithinGrace := false, exitsWithinCloseTimeout := true }

/-- A child that ignores graceful termination and must be killed. -/
def procStubborn : GoProc := { exitsWithinGrace := false, exitsWithinCloseTimeout := false }

def errorResponse1 : JSONRPCResponse :=
  { jsonrpc := "2.0", id := some (.num 1), result := none,
    error := some { code := -32600, message := "unsupported protocol", data := "" } }

/-- A client just after a successful `Connect` whose peer answers the
handshake with an error Response. -/
def connectedClient1 : Client :=
  { serverCommand := ["./bin/stock-analyzer"]
    serverCmd := some (startGo procHealthy)
    stdinOpen := true, stdoutOpen := true, stderrOpen := true
    encoderSet := true, nextID := 1
    incoming := [errorResponse1], outgoing := [] }

/-- A connected client whose child ignores termination signals. -/
def stubbornClient : Client :=
  { connectedClient1 with serverCmd := some (startGo procStubborn), incoming := [] }

/-- A response whose id (42) differs from any id the client sent. -/
def mismatchedResponse : JSONRPCResponse :=
  { jsonrpc := "2.0", id := some (.num 42), result := none, error := none }

def listToolsRequest1 : JSONRPCRequest :=
  { jsonrpc := "2.0", id := some (.num 1), method := "tools/list", params := none }

def mismatchClient : Client :=
  { connectedClient1 with incoming := [mismatchedResponse] }

/-! ### Client-side claims -/

/-- C6 (code bug in the source): `Client.Connect` is meant to fail fast
when the spawned process exits within the grace interval, but the check
reads `cmd.ProcessState`, which `os/exec` populates only once `Wait` (or
`Run`) is called — never between `Start` and the check.  So the branch is
dead and `Connect` returns success even for a command that exits
immediately: the claimed ConnectionError is never produced. -/
theorem connect_misses_immediate_exit :
    ((NewClient ["/bin/false"]).Connect procCrash []).1 = .ok ()
    ∧ (startGo procCrash).processState = none := ⟨rfl, rfl⟩

/-- C7 counterexample: `Client.Initialize` on a Response carrying an error
surfaces the failure but performs no teardown — the spawned process handle
and all three pipes remain open in the resulting client state. -/
theorem initialize_error_no_teardown_counterexample :
    (connectedClient1.Initialize).1 =
      .error ("initialize error: " ++ "unsupported protocol")
    ∧ (connectedClient1.Initialize).2.serverCmd = some (startGo procHealthy)
    ∧ (connectedClient1.Initialize).2.stdinOpen = true
    ∧ (connectedClient1.Initialize).2.stdoutOpen = true
    ∧ (connectedClient1.Initialize).2.stderrOpen = true :=
  ⟨rfl, rfl, rfl, rfl, rfl⟩

/-- C7 amended: when Initialize receives a Response carrying an error it
surfaces an initialization failure to the caller and leaves the Transport
open; teardown happens at the call sites — every Initialize caller in the
repository invokes Close on the failure, after which the process handle is
cleared and all pipes are closed. -/
theorem initialize_error_closed_by_caller (c : Client) (cmd : GoCmd)
    (err : JSONRPCError) (resp : JSONRPCResponse) (rest : List JSONRPCResponse)
    (hcmd : c.serverCmd = some cmd)
    (henc : c.encoderSet = true)
    (hin : c.incoming = resp :: rest)
    (herr : resp.error = some err) :
    (initializeOrClose c).1 =
      .error ("failed to initialize: " ++ ("initialize error: " ++ err.message))
    ∧ (initializeOrClose c).2.serverCmd = none
    ∧ (initializeOrClose c).2.stdinOpen = false
    ∧ (initializeOrClose c).2.stdoutOpen = false
    ∧ (initializeOrClose c).2.stderrOpen = false := by
  simp only [initializeOrClose, Client.Initialize, Client.getNextID,
    Client.sendRequest, henc, Bool.true_eq_false, if_false, hin, herr,
    Client.Close, hcmd]
  refine ⟨?_, ?_, ?_, ?_, ?_⟩ <;> first | rfl | trivial

/-- Witness for the amended C7 at the concrete failing handshake. -/
theorem initialize_error_closed_by_caller_witness :
    (initializeOrClose connectedClient1).1 =
      .error ("failed to initialize: " ++ ("initialize error: " ++ "unsupported protocol"))
    ∧ (initializeOrClose connectedClient1).2.serverCmd = none
    ∧ (initializeOrClose connectedClient1).2.stdinOpen = false
    ∧ (initializeOrClose connectedClient1).2.stdoutOpen = false
    ∧ (initializeOrClose connectedClient1).2.stderrOpen = false :=
  initialize_error_closed_by_caller connectedClient1 (startGo procHealthy)
    { code := -32600, message := "unsupported protocol", data := "" }
    errorResponse1 [] rfl rfl rfl rfl

/-- C8: on a connected client, Close closes the write side (stdin) first,
then the two read sides, then waits for exit up to the 5-second timeout;
if the process has not exited by then it kills it and waits unconditionally
for reclamation.  The trace is a finite list and `Client.Close` is a total
function, so Close always returns; the process handle is cleared. -/
theorem close_contract (c : Client) (cmd : GoCmd) (hcmd : c.serverCmd = some cmd) :
    (c.Close).1 =
      [CloseAction.closeStdin, CloseAction.closeStdout, CloseAction.closeStderr] ++
        (if cmd.proc.exitsWithinCloseTimeout then [CloseAction.waitReturned]
         else [CloseAction.timeoutExpired, CloseAction.killProcess,
               CloseAction.waitAfterKill])
    ∧ (c.Close).2.serverCmd = none := by
  simp only [Client.Close, hcmd]
  refine ⟨?_, ?_⟩ <;> first | rfl | trivial

/-- Witness for C8 on the child that ignores termination signals. -/
theorem close_contract_witness :
    (stubbornClient.Close).1 =
      [CloseAction.closeStdin, CloseAction.closeStdout, CloseAction.closeStderr] ++
        (if (startGo procStubborn).proc.exitsWithinCloseTimeout then
          [CloseAction.waitReturned]
         else [CloseAction.timeoutExpired, CloseAction.killProcess,
               CloseAction.waitAfterKill])
    ∧ (stubbornClient.Close).2.serverCmd = none :=
  close_contract stubbornClient (startGo procStubborn) rfl

/-- C9: the self-issued Request ids of a fresh client are exactly
1, 2, 3, …: after any number `n` of allocations the issued ids are
`[1, …, n]`, a strictly increasing sequence starting at 1 with no id ever
reused. -/
theorem monotonic_ids (args : List String) (n : Nat) :
    idsAllocated (NewClient args) n = List.range' 1 n
    ∧ List.Chain' (· < ·) (idsAllocated (NewClient args) n)
    ∧ (idsAllocated (NewClient args) n).Nodup := by
  have h : idsAllocated (NewClient args) n = List.range' 1 n :=
    idsAllocated_eq_range (NewClient args) n
  refine ⟨h, ?_, ?_⟩
  · rw [h]
    exact (List.pairwise_lt_range' 1 n).chain'
  · rw [h]
    exact List.nodup_range' 1 n

/-- C10 (implicit behaviour of the source): `sendRequest` correlates
positionally — it returns whatever envelope the decoder yields next,
without comparing that envelope's id (or any other field) with the sent
request's; the statement places no constraint relating `resp.id` and
`request.id`, so a response with a different or absent id is accepted and
returned. -/
theorem sendRequest_positional (c : Client) (request : JSONRPCRequest)
    (resp : JSONRPCResponse) (rest : List JSONRPCResponse)
    (henc : c.encoderSet = true)
    (hin : c.incoming = resp :: rest) :
    (c.sendRequest request).1 = .ok resp := by
  simp only [Client.sendRequest, henc, Bool.true_eq_false, if_false, hin]

/-- Witness for C10: the request carries id 1, the next decoded envelope
carries id 42; `sendRequest` returns it anyway. -/
theorem sendRequest_positional_witness :
    (mismatchClient.sendRequest listToolsRequest1).1 = .ok mismatchedResponse :=
  sendRequest_positional mismatchClient listToolsRequest1 mismatchedResponse [] rfl rfl

end MCP
